import Mathlib

/-!
Shallow embedding of the model-abstraction and factory layer of the
`tkinter-ai-gui-oop` repository (files `base_classes.py` and `ai_models.py`),
together with theorems settling the frozen claims about it.

Conventions of the embedding:
* A Python call that may raise is modelled as `Except PyExc α`; the only
  exceptions that escape the embedded entry points are `ValueError`s
  (from the `validate_input` decorator and from `ModelFactory.create_model`).
  Exceptions raised *inside* a `try` block and caught there are carried as
  plain `String` messages (the result of Python `str(e)`).
* The `_pipeline` attribute holds either `None`, a string (the mock marker),
  or a real callable; the real callable and the filesystem (`PIL.Image.open`)
  are external collaborators, modelled as explicit parameters.
* `process_input` assigns no instance attribute in the source, so the
  embedding returns the result paired with the (unchanged) instance state;
  `load_model`, which does assign, returns a new state.
* Python `str.lower` / `str.strip` are modelled for ASCII text (the only
  text the claims involve); confidence scores are exact rationals.
-/

/-- The exceptions the embedded entry points can propagate: Python's
`ValueError` with its message. -/
inductive PyExc where
  | valueError (msg : String)
deriving DecidableEq, Repr

/-- An argument passed to `process_input`: Python `None` or a string.
(The `validate_input` decorator only distinguishes falsy from truthy.) -/
inductive PyInput where
  | none
  | str (s : String)
deriving DecidableEq, Repr

/-- Python falsiness for a `process_input` argument: `None` and `""` are
falsy, every other string is truthy. -/
def PyInput.isFalsy : PyInput → Bool
  | .none => true
  | .str s => s == ""

/-- One ranked prediction: a `{"label": ..., "score": ...}` dictionary. -/
structure LabelScore where
  label : String
  score : ℚ
deriving DecidableEq, Repr

/-- The value of the `_pipeline` attribute: `None` (as set by `__init__`),
some Python string (the mock markers `"mock_sentiment_pipeline"` /
`"mock_image_pipeline"`), or a real callable pipeline.  A real pipeline maps
its input to a ranked list or raises (message carried in `Except`). -/
inductive Pipeline (α : Type) where
  | pyNone
  | pyStr (s : String)
  | real (f : α → Except String (List LabelScore))

/-- `isinstance(self._pipeline, str) and self._pipeline == name`. -/
def Pipeline.isMockStr (p : Pipeline α) (name : String) : Bool :=
  match p with
  | .pyStr s => s == name
  | _ => false

/-- Calling `self._pipeline(x)`.  Calling `None` or a string raises a
`TypeError` (caught by the enclosing `try`, hence carried as a message). -/
def Pipeline.call (p : Pipeline α) (x : α) : Except String (List LabelScore) :=
  match p with
  | .pyNone => .error "'NoneType' object is not callable"
  | .pyStr _ => .error "'str' object is not callable"
  | .real f => f x

/-- The instance attributes set by `AIModelBase.__init__` (the unused
`_model` attribute is omitted), plus the subclass's `_pipeline` attribute.
`α` is the input type of the real pipeline (text: `String`;
image: `PILImage`). -/
structure ModelState (α : Type) where
  model_name : String
  category : String
  is_loaded : Bool
  pipeline : Pipeline α

/- ---------------------------------------------------------------------
Text helpers (`base_classes.py`, `TextProcessorMixin`) and string modelling.
--------------------------------------------------------------------- -/

/-- ASCII whitespace stripped by Python `str.strip()`. -/
def pyIsSpace (c : Char) : Bool :=
  c = ' ' || c = '\t' || c = '\n' || c = '\r' || c = '\x0b' || c = '\x0c'

/-- Python `s.strip()` (for ASCII whitespace): drop whitespace from both
ends. -/
def pyStrip (s : String) : String :=
  ⟨((s.data.dropWhile pyIsSpace).reverse.dropWhile pyIsSpace).reverse⟩

/-- Python `s.lower()` for ASCII letters. -/
def strLower (s : String) : String :=
  ⟨s.data.map Char.toLower⟩

/-- Python `needle in hay`: substring containment. -/
def strContains (hay needle : String) : Bool :=
  decide (needle.data <:+: hay.data)

/-- Python `s.endswith(suffix)`. -/
def strEndsWith (s suffix : String) : Bool :=
  decide (suffix.data <:+ s.data)

/-- `TextProcessorMixin.clean_text` on a string argument:
`text.strip().replace('\n', ' ').replace('\t', ' ')`. -/
def clean_text (text : String) : String :=
  ⟨(((pyStrip text).data.map fun c => if c = '\n' then ' ' else c).map
      fun c => if c = '\t' then ' ' else c)⟩

/-- `TextProcessorMixin.validate_text_length`: `len(text) <= max_length`. -/
def validate_text_length (text : String) (max_length : Nat := 1000) : Bool :=
  decide (text.length ≤ max_length)

/- ---------------------------------------------------------------------
Image helpers (`base_classes.py`, `ImageProcessorMixin`) and the
filesystem environment.
--------------------------------------------------------------------- -/

/-- What `PIL.Image.open` yields on success: the attributes the code reads. -/
structure PILImage where
  format : String
  mode : String
  width : Nat
  height : Nat

/-- The external world the image variant touches: `PIL.Image.open` on a
path either returns an image object or raises (message carried). -/
structure ImageEnv where
  openImage : String → Except String PILImage

/-- The allow-list `valid_formats` of `validate_image_format`. -/
def valid_formats : List String := [".jpg", ".jpeg", ".png", ".bmp", ".gif"]

/-- `ImageProcessorMixin.validate_image_format`:
`any(image_path.lower().endswith(fmt) for fmt in valid_formats)`. -/
def validate_image_format (image_path : String) : Bool :=
  valid_formats.any fun fmt => strEndsWith (strLower image_path) fmt

/-- Result of `ImageProcessorMixin.get_image_info`: either the
format/mode/size dictionary or the `{"error": ...}` dictionary. -/
inductive ImageInfo where
  | info (format : String) (mode : String) (width height : Nat)
  | err (msg : String)
deriving DecidableEq, Repr

/-- `ImageProcessorMixin.get_image_info`: open the image and read its
attributes; any exception is caught and returned as `{"error": str(e)}`. -/
def get_image_info (env : ImageEnv) (image_path : String) : ImageInfo :=
  match env.openImage image_path with
  | .ok img => .info img.format img.mode img.width img.height
  | .error e => .err e

/-- Python `os.path.basename` (POSIX): the part after the last `/`. -/
def basename (p : String) : String :=
  ⟨(p.data.reverse.takeWhile fun c => c ≠ '/').reverse⟩

/- ---------------------------------------------------------------------
Text variant (`ai_models.py`, `TextClassificationModel`).
--------------------------------------------------------------------- -/

/-- The dictionary returned by `TextClassificationModel.process_input`:
either `{"error": msg}` or
`{"input": ..., "results": ..., "model_used": ...}`. -/
inductive TextResult where
  | err (msg : String)
  | ok (input : String) (results : List LabelScore) (model_used : String)
deriving DecidableEq, Repr

/-- The state built by `TextClassificationModel.__init__`. -/
def TextClassificationModel.init : ModelState String :=
  { model_name := "distilbert-base-uncased-finetuned-sst-2-english",
    category := "Text Classification",
    is_loaded := false,
    pipeline := .pyNone }

/-- Body of `TextClassificationModel.process_input` (the code below the
`validate_input` decorator).  Everything after the load check sits in a
`try` block; the only statement there that can raise is the real pipeline
call, whose failure the `except` turns into
`{"error": "Processing failed: " + str(e)}`. -/
def TextClassificationModel.process_body (s : ModelState String)
    (input_text : String) : TextResult :=
  if !s.is_loaded then .err "Model not loaded"
  else
    let cleaned_text := clean_text input_text
    if !validate_text_length cleaned_text then
      .err "Text too long (max 1000 characters)"
    else
      if s.pipeline.isMockStr "mock_sentiment_pipeline" then
        .ok cleaned_text
          [⟨if strContains (strLower cleaned_text) "good"
              || strContains (strLower cleaned_text) "great"
            then "POSITIVE" else "NEGATIVE", 0.95⟩]
          s.model_name
      else
        match s.pipeline.call cleaned_text with
        | .ok results => .ok cleaned_text results s.model_name
        | .error e => .err ("Processing failed: " ++ e)

/-- `TextClassificationModel.process_input`, with its `validate_input`
decorator inlined: a falsy argument raises
`ValueError("Input cannot be empty")` before anything else runs.  The
method assigns no instance attribute, so the post-state is the pre-state. -/
def TextClassificationModel.process_input (s : ModelState String)
    (input : PyInput) : Except PyExc TextResult × ModelState String :=
  (match input with
   | .none => .error (.valueError "Input cannot be empty")
   | .str t =>
     if t == "" then .error (.valueError "Input cannot be empty")
     else .ok (TextClassificationModel.process_body s t), s)

/- ---------------------------------------------------------------------
Image variant (`ai_models.py`, `ImageClassificationModel`).
--------------------------------------------------------------------- -/

/-- The dictionary returned by `ImageClassificationModel.process_input`. -/
inductive ImageResult where
  | err (msg : String)
  | ok (image_info : ImageInfo) (results : List LabelScore)
      (model_used : String)
deriving DecidableEq, Repr

/-- The state built by `ImageClassificationModel.__init__`. -/
def ImageClassificationModel.init : ModelState PILImage :=
  { model_name := "google/vit-base-patch16-224",
    category := "Image Classification",
    is_loaded := false,
    pipeline := .pyNone }

/-- Body of `ImageClassificationModel.process_input` below the decorator.
Inside the `try`: the format check, then `Image.open` (which may raise —
its failure reaches the outer `except`), then `get_image_info` (which
catches internally), then the mock or real responder.  The result list is
truncated to 5 entries (`results[:5]`). -/
def ImageClassificationModel.process_body (s : ModelState PILImage)
    (env : ImageEnv) (image_path : String) : ImageResult :=
  if !s.is_loaded then .err "Model not loaded"
  else
    if !validate_image_format image_path then .err "Invalid image format"
    else
      match env.openImage image_path with
      | .error e => .err ("Processing failed: " ++ e)
      | .ok image =>
        let image_info := get_image_info env image_path
        if s.pipeline.isMockStr "mock_image_pipeline" then
          let filename := strLower (basename image_path)
          let results :=
            if strContains filename "cat" then
              [⟨"tabby cat", 0.85⟩, ⟨"domestic cat", 0.12⟩]
            else if strContains filename "dog" then
              [⟨"golden retriever", 0.78⟩, ⟨"labrador", 0.15⟩]
            else
              [⟨"object", 0.65⟩, ⟨"item", 0.25⟩, ⟨"thing", 0.10⟩]
          .ok image_info (results.take 5) s.model_name
        else
          match s.pipeline.call image with
          | .ok results => .ok image_info (results.take 5) s.model_name
          | .error e => .err ("Processing failed: " ++ e)

/-- `ImageClassificationModel.process_input` with the `validate_input`
decorator inlined; no instance attribute is assigned. -/
def ImageClassificationModel.process_input (s : ModelState PILImage)
    (env : ImageEnv) (input : PyInput) :
    Except PyExc ImageResult × ModelState PILImage :=
  (match input with
   | .none => .error (.valueError "Input cannot be empty")
   | .str p =>
     if p == "" then .error (.valueError "Input cannot be empty")
     else .ok (ImageClassificationModel.process_body s env p), s)

/- ---------------------------------------------------------------------
Uniform view over the two variants, `get_model_info`, and the factory.
--------------------------------------------------------------------- -/

/-- A model instance of either variant. -/
inductive ModelInstance where
  | text (s : ModelState String)
  | image (s : ModelState PILImage)

/-- A `process_input` result of either variant. -/
inductive ProcResult where
  | text (r : TextResult)
  | image (r : ImageResult)
deriving DecidableEq, Repr

/-- `process_input` dispatched on the concrete variant (polymorphic call
through the `AIModelBase` interface).  The text variant touches no
external resource, so `env` is passed through untouched there. -/
def ModelInstance.process_input (m : ModelInstance) (env : ImageEnv)
    (input : PyInput) : Except PyExc ProcResult × ModelInstance :=
  match m with
  | .text s =>
    let r := TextClassificationModel.process_input s input
    (r.1.map .text, .text r.2)
  | .image s =>
    let r := ImageClassificationModel.process_input s env input
    (r.1.map .image, .image r.2)

/-- The loaded flag of either variant. -/
def ModelInstance.is_loaded : ModelInstance → Bool
  | .text s => s.is_loaded
  | .image s => s.is_loaded

/-- Python `dict.update`: keys already present are overwritten in place,
new keys are appended in order. -/
def dictUpdate (base upd : List (String × String)) :
    List (String × String) :=
  upd.foldl
    (fun acc kv =>
      if acc.any fun p => p.1 == kv.1 then
        acc.map fun p => if p.1 == kv.1 then (p.1, kv.2) else p
      else acc ++ [kv])
    base

/-- `AIModelBase.get_model_info`: the base descriptor dictionary. -/
def AIModelBase.get_model_info (s : ModelState α) : List (String × String) :=
  [("name", s.model_name),
   ("category", s.category),
   ("status", if s.is_loaded then "Loaded" else "Not Loaded")]

/-- `TextClassificationModel.get_model_info`: base info updated with the
variant's fixed capability metadata. -/
def TextClassificationModel.get_model_info (s : ModelState String) :
    List (String × String) :=
  dictUpdate (AIModelBase.get_model_info s)
    [("description", "DistilBERT sentiment analysis model"),
     ("input_type", "Text"),
     ("output_type", "Sentiment classification (POSITIVE/NEGATIVE)"),
     ("use_case", "Analyze sentiment of text input, reviews, comments")]

/-- `ImageClassificationModel.get_model_info`. -/
def ImageClassificationModel.get_model_info (s : ModelState PILImage) :
    List (String × String) :=
  dictUpdate (AIModelBase.get_model_info s)
    [("description", "Vision Transformer for image classification"),
     ("input_type", "Image (JPG, PNG, BMP, GIF)"),
     ("output_type", "Object classification with confidence scores"),
     ("use_case", "Identify objects, animals, scenes in images")]

/-- `get_model_info` dispatched on the variant. -/
def ModelInstance.get_model_info : ModelInstance → List (String × String)
  | .text s => TextClassificationModel.get_model_info s
  | .image s => ImageClassificationModel.get_model_info s

/-- Which variant class a registry entry maps to. -/
inductive ModelType where
  | text
  | image
deriving DecidableEq, Repr

/-- Calling the registered class: `cls._models[model_type]()` constructs a
fresh instance via the variant's `__init__`. -/
def constructModel : ModelType → ModelInstance
  | .text => .text TextClassificationModel.init
  | .image => .image ImageClassificationModel.init

/-- `ModelFactory._models`, in its registration (insertion) order. -/
def ModelFactory.models : List (String × ModelType) :=
  [("Text-to-Image", ModelType.text),
   ("Image Classification", ModelType.image)]

/-- `ModelFactory.create_model`: unknown identifiers raise
`ValueError(f"Unknown model type: {model_type}")`; registered ones
construct a fresh instance of the mapped class. -/
def ModelFactory.create_model (model_type : String) :
    Except PyExc ModelInstance :=
  match ModelFactory.models.lookup model_type with
  | .none => .error (.valueError ("Unknown model type: " ++ model_type))
  | .some ty => .ok (constructModel ty)

/-- `ModelFactory.create_model` with Python object allocation made
explicit: each constructor call returns an object at a fresh address
(`next`), and the next free address afterwards. -/
def ModelFactory.create_model_alloc (next : Nat) (model_type : String) :
    Except PyExc ((Nat × ModelInstance) × Nat) :=
  match ModelFactory.models.lookup model_type with
  | .none => .error (.valueError ("Unknown model type: " ++ model_type))
  | .some ty => .ok ((next, constructModel ty), next + 1)

/-- `ModelFactory.get_available_models`: `list(cls._models.keys())` in
insertion order. -/
def ModelFactory.get_available_models : List String :=
  ModelFactory.models.map Prod.fst

/- ---------------------------------------------------------------------
Load (for completeness of the state machine) and concrete fixtures used
by the witnesses.
--------------------------------------------------------------------- -/

/-- `TextClassificationModel.load_model`: tries to construct the real
pipeline (the external `pipeline(...)` call, modelled by `tryPipeline`);
on any failure it falls back to the mock marker string.  Either way the
method then sets `_is_loaded = True`. -/
def TextClassificationModel.load_model (s : ModelState String)
    (tryPipeline : Except String (String → Except String (List LabelScore))) :
    ModelState String :=
  match tryPipeline with
  | .ok f => { s with pipeline := .real f, is_loaded := true }
  | .error _ =>
    { s with pipeline := .pyStr "mock_sentiment_pipeline", is_loaded := true }

/-- `ImageClassificationModel.load_model`, analogous. -/
def ImageClassificationModel.load_model (s : ModelState PILImage)
    (tryPipeline : Except String (PILImage → Except String (List LabelScore))) :
    ModelState PILImage :=
  match tryPipeline with
  | .ok f => { s with pipeline := .real f, is_loaded := true }
  | .error _ =>
    { s with pipeline := .pyStr "mock_image_pipeline", is_loaded := true }

/-- A filesystem on which every `Image.open` raises `FileNotFoundError`. -/
def envMissing : ImageEnv :=
  ⟨fun p => .error ("[Errno 2] No such file or directory: '" ++ p ++ "'")⟩

/-- A filesystem on which every `Image.open` succeeds with a 224×224 PNG. -/
def envStub : ImageEnv :=
  ⟨fun _ => .ok ⟨"PNG", "RGB", 224, 224⟩⟩

/-- A text model after a `load_model` that fell back to the mock pipeline. -/
def textMockLoaded : ModelState String :=
  TextClassificationModel.load_model TextClassificationModel.init
    (.error "offline")

/-- An image model after a `load_model` that fell back to the mock
pipeline. -/
def imgMockLoaded : ModelState PILImage :=
  ImageClassificationModel.load_model ImageClassificationModel.init
    (.error "offline")

/-- A real responder that always raises. -/
def failingResponder : String → Except String (List LabelScore) :=
  fun _ => .error "boom"

/-- A text model loaded with an always-raising real responder. -/
def textRealFail : ModelState String :=
  TextClassificationModel.load_model TextClassificationModel.init
    (.ok failingResponder)

/-- The string `"a" * 1001`. -/
def longA : String := ⟨List.replicate 1001 'a'⟩

/-- Observer: the first label of the ranked list of an image
`process_input` outcome, when there is one. -/
def firstLabel : Except PyExc ImageResult → Option String
  | .ok (.ok _ (r :: _) _) => some r.label
  | _ => none

/- ---------------------------------------------------------------------
Claims.
--------------------------------------------------------------------- -/

/-- C1: for every model variant, every non-empty input and every load
state, `process_input` returns a dictionary result and never propagates an
exception; any exception raised during variant-specific preprocessing or
the responder call (a raising real text responder, a failing `Image.open`,
a raising real image responder) is caught and converted into an error
result whose message is the exception's message prefixed with
`"Processing failed: "`. -/
theorem claim_C1_process_never_raises :
    (∀ (m : ModelInstance) (env : ImageEnv) (input : PyInput),
       input.isFalsy = false →
       ∃ r, m.process_input env input = (.ok r, m))
  ∧ (∀ (s : ModelState String) (t : String) f e,
       (t == "") = false → s.is_loaded = true → s.pipeline = .real f →
       validate_text_length (clean_text t) = true →
       f (clean_text t) = .error e →
       TextClassificationModel.process_input s (.str t) =
         (.ok (.err ("Processing failed: " ++ e)), s))
  ∧ (∀ (s : ModelState PILImage) (env : ImageEnv) (p e : String),
       (p == "") = false → s.is_loaded = true →
       validate_image_format p = true → env.openImage p = .error e →
       ImageClassificationModel.process_input s env (.str p) =
         (.ok (.err ("Processing failed: " ++ e)), s))
  ∧ (∀ (s : ModelState PILImage) (env : ImageEnv) (p : String) img f e,
       (p == "") = false → s.is_loaded = true →
       validate_image_format p = true → env.openImage p = .ok img →
       s.pipeline = .real f → f img = .error e →
       ImageClassificationModel.process_input s env (.str p) =
         (.ok (.err ("Processing failed: " ++ e)), s)) := by
  refine ⟨?_, ?_, ?_, ?_⟩
  · intro m env input h
    cases m with
    | text s =>
      cases input with
      | none => simp [PyInput.isFalsy] at h
      | str t =>
        simp only [PyInput.isFalsy] at h
        exact ⟨.text (TextClassificationModel.process_body s t), by
          simp [ModelInstance.process_input,
            TextClassificationModel.process_input, h, Except.map]⟩
    | image s =>
      cases input with
      | none => simp [PyInput.isFalsy] at h
      | str t =>
        simp only [PyInput.isFalsy] at h
        exact ⟨.image (ImageClassificationModel.process_body s env t), by
          simp [ModelInstance.process_input,
            ImageClassificationModel.process_input, h, Except.map]⟩
  · intro s t f e hne hload hpipe hlen hfail
    simp [TextClassificationModel.process_input, hne,
      TextClassificationModel.process_body, hload, hlen, hpipe,
      Pipeline.isMockStr, Pipeline.call, hfail]
  · intro s env p e hne hload hfmt hopen
    simp [ImageClassificationModel.process_input, hne,
      ImageClassificationModel.process_body, hload, hfmt, hopen]
  · intro s env p img f e hne hload hfmt hopen hpipe hfail
    simp [ImageClassificationModel.process_input, hne,
      ImageClassificationModel.process_body, hload, hfmt, hopen, hpipe,
      Pipeline.isMockStr, Pipeline.call, hfail]

/-- Witness for C1 at concrete inputs: a non-empty input on a fresh text
model yields a returned dictionary, and a loaded text model whose real
responder raises `"boom"` returns the prefixed soft error. -/
theorem claim_C1_witness :
    (∃ r, (ModelInstance.text TextClassificationModel.init).process_input
        envMissing (.str "hi") = (.ok r, .text TextClassificationModel.init))
  ∧ TextClassificationModel.process_input textRealFail (.str "hi") =
      (.ok (.err "Processing failed: boom"), textRealFail) := by
  refine ⟨claim_C1_process_never_raises.1 _ envMissing (.str "hi") rfl, ?_⟩
  exact claim_C1_process_never_raises.2.1 textRealFail "hi" failingResponder
    "boom" rfl rfl rfl (by decide) rfl

/-- C2: for every model variant and every empty/falsy input (`None` or
`""`), `process_input` raises `ValueError("Input cannot be empty")` — a
raised exception, not a soft error result — and it is raised whatever the
load state is, since the decorator runs before the load-state check. -/
theorem claim_C2_invalid_input_raised (m : ModelInstance) (env : ImageEnv)
    (input : PyInput) (h : input.isFalsy = true) :
    m.process_input env input =
      (.error (.valueError "Input cannot be empty"), m) := by
  cases m <;> cases input <;>
    simp_all [PyInput.isFalsy, ModelInstance.process_input,
      TextClassificationModel.process_input,
      ImageClassificationModel.process_input, Except.map]

/-- Witness for C2: `None` on a fresh (not loaded) text model and `""` on
a fresh image model both raise. -/
theorem claim_C2_witness :
    (ModelInstance.text TextClassificationModel.init).process_input
        envMissing .none =
      (.error (.valueError "Input cannot be empty"),
       .text TextClassificationModel.init)
  ∧ (ModelInstance.image ImageClassificationModel.init).process_input
        envMissing (.str "") =
      (.error (.valueError "Input cannot be empty"),
       .image ImageClassificationModel.init) :=
  ⟨claim_C2_invalid_input_raised _ envMissing .none rfl,
   claim_C2_invalid_input_raised _ envMissing (.str "") rfl⟩

/-- C3: for every model variant and every non-empty input, if the loaded
flag is false then `process_input` returns the soft error result
`{"error": "Model not loaded"}` and does not raise. -/
theorem claim_C3_not_loaded :
    (∀ (s : ModelState String) (t : String),
       (t == "") = false → s.is_loaded = false →
       TextClassificationModel.process_input s (.str t) =
         (.ok (.err "Model not loaded"), s))
  ∧ (∀ (s : ModelState PILImage) (env : ImageEnv) (t : String),
       (t == "") = false → s.is_loaded = false →
       ImageClassificationModel.process_input s env (.str t) =
         (.ok (.err "Model not loaded"), s)) := by
  constructor
  · intro s t hne hload
    simp [TextClassificationModel.process_input, hne,
      TextClassificationModel.process_body, hload]
  · intro s env t hne hload
    simp [ImageClassificationModel.process_input, hne,
      ImageClassificationModel.process_body, hload]

/-- Witness for C3: both fresh (never loaded) variants report
`"Model not loaded"` on a non-empty input. -/
theorem claim_C3_witness :
    TextClassificationModel.process_input TextClassificationModel.init
        (.str "hello") =
      (.ok (.err "Model not loaded"), TextClassificationModel.init)
  ∧ ImageClassificationModel.process_input ImageClassificationModel.init
        envMissing (.str "cat.png") =
      (.ok (.err "Model not loaded"), ImageClassificationModel.init) :=
  ⟨claim_C3_not_loaded.1 TextClassificationModel.init "hello" rfl rfl,
   claim_C3_not_loaded.2 ImageClassificationModel.init envMissing
     "cat.png" rfl rfl⟩

/-- C9: for every model variant, every input and every starting state,
`process_input` leaves the instance state (loaded flag, model name,
category, pipeline) unchanged, whether the call returns a success result,
a soft error result, or raises on invalid input. -/
theorem claim_C9_process_preserves_state (m : ModelInstance)
    (env : ImageEnv) (input : PyInput) :
    (m.process_input env input).2 = m := by
  cases m <;> rfl

/-- C4: for the text variant, loaded with the mock responder, and any
non-empty text whose cleaned form has length at most 1000, `process_input`
returns a single-entry ranked list whose label is `"POSITIVE"` when the
cleaned text contains `"good"` or `"great"` (case-insensitive) and
`"NEGATIVE"` otherwise, always with the fixed confidence score `0.95`. -/
theorem claim_C4_mock_sentiment (s : ModelState String) (t : String)
    (hne : (t == "") = false) (hload : s.is_loaded = true)
    (hmock : s.pipeline = .pyStr "mock_sentiment_pipeline")
    (hlen : (clean_text t).length ≤ 1000) :
    TextClassificationModel.process_input s (.str t) =
      (.ok (.ok (clean_text t)
        [⟨if strContains (strLower (clean_text t)) "good"
            || strContains (strLower (clean_text t)) "great"
          then "POSITIVE" else "NEGATIVE", 0.95⟩] s.model_name), s) := by
  simp [TextClassificationModel.process_input, hne,
    TextClassificationModel.process_body, hload, validate_text_length, hlen,
    hmock, Pipeline.isMockStr]

/-- Witness for C4: `"this is great"` on a loaded mock text model comes
back `"POSITIVE"` with score `0.95`. -/
theorem claim_C4_witness :
    (TextClassificationModel.process_input textMockLoaded
        (.str "this is great")).1 =
      .ok (.ok "this is great" [⟨"POSITIVE", 0.95⟩]
        "distilbert-base-uncased-finetuned-sst-2-english") := by
  rw [claim_C4_mock_sentiment textMockLoaded "this is great" rfl rfl rfl
    (by decide)]
  rfl

/-- C5: for the text variant after a successful load, any input whose
cleaned text is longer than 1000 characters makes `process_input` return
the error result `"Text too long (max 1000 characters)"` with no exception
raised; text of cleaned length at most 1000 passes the guard. -/
theorem claim_C5_length_guard :
    (∀ (s : ModelState String) (t : String),
       (t == "") = false → s.is_loaded = true →
       1000 < (clean_text t).length →
       TextClassificationModel.process_input s (.str t) =
         (.ok (.err "Text too long (max 1000 characters)"), s))
  ∧ (∀ t : String, t.length ≤ 1000 → validate_text_length t = true) := by
  constructor
  · intro s t hne hload hlen
    have hfail : ¬ (clean_text t).length ≤ 1000 := by omega
    simp [TextClassificationModel.process_input, hne,
      TextClassificationModel.process_body, hload, validate_text_length,
      hfail]
  · intro t h
    simpa [validate_text_length] using h

set_option maxRecDepth 8000 in
/-- Witness for C5: `"a" * 1001` on a loaded mock text model yields the
length error, and a short cleaned text passes the guard. -/
theorem claim_C5_witness :
    (TextClassificationModel.process_input textMockLoaded (.str longA)).1 =
        .ok (.err "Text too long (max 1000 characters)")
  ∧ validate_text_length (clean_text "this is great") = true := by
  refine ⟨?_, claim_C5_length_guard.2 (clean_text "this is great")
    (by decide)⟩
  rw [claim_C5_length_guard.1 textMockLoaded longA (by decide) rfl
    (by decide)]

/-- C6: for the image variant after a successful load, any non-empty path
not ending (case-insensitively) in one of `.jpg .jpeg .png .bmp .gif`
makes `process_input` return the soft error `"Invalid image format"`
without raising, on every filesystem alike (so before any attempt to open
the file); a path lower-casing to an allow-listed suffix passes the
check. -/
theorem claim_C6_format_guard :
    (∀ (s : ModelState PILImage) (env : ImageEnv) (p : String),
       (p == "") = false → s.is_loaded = true →
       validate_image_format p = false →
       ImageClassificationModel.process_input s env (.str p) =
         (.ok (.err "Invalid image format"), s))
  ∧ (∀ (p fmt : String), fmt ∈ valid_formats →
       strEndsWith (strLower p) fmt = true →
       validate_image_format p = true) := by
  constructor
  · intro s env p hne hload hfmt
    simp [ImageClassificationModel.process_input, hne,
      ImageClassificationModel.process_body, hload, hfmt]
  · intro p fmt hmem hsuf
    simp only [validate_image_format, List.any_eq_true]
    exact ⟨fmt, hmem, hsuf⟩

/-- Witness for C6: `"notes.txt"` is rejected as an invalid format on a
loaded mock image model (identically on a filesystem where every open
fails), and the upper-case path `"PHOTO.PNG"` passes the check. -/
theorem claim_C6_witness :
    (ImageClassificationModel.process_input imgMockLoaded envMissing
        (.str "notes.txt")).1 = .ok (.err "Invalid image format")
  ∧ validate_image_format "PHOTO.PNG" = true := by
  refine ⟨?_, claim_C6_format_guard.2 "PHOTO.PNG" ".png" (by decide)
    (by decide)⟩
  rw [claim_C6_format_guard.1 imgMockLoaded envMissing "notes.txt" rfl rfl
    (by decide)]

/-- Helper: on a loaded image model with the mock pipeline, when
`Image.open` succeeds the returned dictionary is the filename-driven mock
guess (truncated to 5) together with the image metadata. -/
theorem mock_image_process_eq (s : ModelState PILImage) (env : ImageEnv)
    (p : String) (img : PILImage) (hne : (p == "") = false)
    (hload : s.is_loaded = true)
    (hmock : s.pipeline = .pyStr "mock_image_pipeline")
    (hfmt : validate_image_format p = true)
    (hopen : env.openImage p = .ok img) :
    ImageClassificationModel.process_input s env (.str p) =
      (.ok (.ok (get_image_info env p)
        ((if strContains (strLower (basename p)) "cat" then
            [⟨"tabby cat", 0.85⟩, ⟨"domestic cat", 0.12⟩]
          else if strContains (strLower (basename p)) "dog" then
            [⟨"golden retriever", 0.78⟩, ⟨"labrador", 0.15⟩]
          else
            [⟨"object", 0.65⟩, ⟨"item", 0.25⟩, ⟨"thing", 0.10⟩]).take 5)
        s.model_name), s) := by
  simp [ImageClassificationModel.process_input, hne,
    ImageClassificationModel.process_body, hload, hfmt, hopen, hmock,
    Pipeline.isMockStr]

/-- C7 counterexample: on a filesystem without the file, the loaded mock
image model's `process_input "photo_of_dog.png"` has no ranked list at
all (it is the soft error `"Processing failed: ..."`), so its first label
is not the dog-associated label — the claim omits the requirement that
`Image.open` succeed, which line 141 of `ai_models.py` imposes before the
mock responder runs. -/
theorem claim_C7_counterexample :
    firstLabel (ImageClassificationModel.process_input imgMockLoaded
        envMissing (.str "photo_of_dog.png")).1 ≠ some "golden retriever"
    ∧ (ImageClassificationModel.process_input imgMockLoaded envMissing
        (.str "photo_of_dog.png")).1 =
      .ok (.err
        "Processing failed: [Errno 2] No such file or directory: 'photo_of_dog.png'") := by
  constructor
  · decide
  · rfl

/-- C7 (amended): for the image variant, loaded with the mock responder,
and provided `Image.open` succeeds on the path,
`process_input "photo_of_dog.png"` returns a result whose first ranked
label is `"golden retriever"`; in general a filename containing
`"cat"`/`"dog"` (case-insensitive) yields the matching fixed two-label
guess and any other allow-listed, openable filename the generic
three-label fallback guess. -/
theorem claim_C7_mock_image :
    (∀ (s : ModelState PILImage) (env : ImageEnv) (img : PILImage),
       s.is_loaded = true → s.pipeline = .pyStr "mock_image_pipeline" →
       env.openImage "photo_of_dog.png" = .ok img →
       firstLabel (ImageClassificationModel.process_input s env
           (.str "photo_of_dog.png")).1 = some "golden retriever")
  ∧ (∀ (s : ModelState PILImage) (env : ImageEnv) (p : String)
       (img : PILImage),
       (p == "") = false → s.is_loaded = true →
       s.pipeline = .pyStr "mock_image_pipeline" →
       validate_image_format p = true → env.openImage p = .ok img →
       ImageClassificationModel.process_input s env (.str p) =
         (.ok (.ok (get_image_info env p)
           ((if strContains (strLower (basename p)) "cat" then
               [⟨"tabby cat", 0.85⟩, ⟨"domestic cat", 0.12⟩]
             else if strContains (strLower (basename p)) "dog" then
               [⟨"golden retriever", 0.78⟩, ⟨"labrador", 0.15⟩]
             else
               [⟨"object", 0.65⟩, ⟨"item", 0.25⟩, ⟨"thing", 0.10⟩]).take 5)
           s.model_name), s)) := by
  constructor
  · intro s env img hload hmock hopen
    rw [mock_image_process_eq s env "photo_of_dog.png" img rfl hload hmock
      (by decide) hopen]
    rfl
  · exact mock_image_process_eq

/-- Witness for C7 (amended): on a filesystem where the open succeeds,
the dog photo is classified `"golden retriever"` first. -/
theorem claim_C7_witness :
    firstLabel (ImageClassificationModel.process_input imgMockLoaded envStub
        (.str "photo_of_dog.png")).1 = some "golden retriever" :=
  claim_C7_mock_image.1 imgMockLoaded envStub ⟨"PNG", "RGB", 224, 224⟩
    rfl rfl rfl

/-- C8: `create_model` on an unregistered identifier raises a `ValueError`
mentioning the identifier; on a registered identifier it constructs and
returns a fresh instance of the mapped variant class — with Python object
allocation made explicit, the address of the instance returned by a call
differs from that of any instance returned earlier. -/
theorem claim_C8_create_model :
    (∀ t, ModelFactory.models.lookup t = .none →
       ModelFactory.create_model t =
         .error (.valueError ("Unknown model type: " ++ t)))
  ∧ (∀ t ty, ModelFactory.models.lookup t = .some ty →
       ModelFactory.create_model t = .ok (constructModel ty))
  ∧ (∀ (next : Nat) (t t' : String) (a : Nat × ModelInstance) (n : Nat)
       (a' : Nat × ModelInstance) (n' : Nat),
       ModelFactory.create_model_alloc next t = .ok (a, n) →
       ModelFactory.create_model_alloc n t' = .ok (a', n') →
       a.1 ≠ a'.1) := by
  refine ⟨?_, ?_, ?_⟩
  · intro t h
    simp [ModelFactory.create_model, h]
  · intro t ty h
    simp [ModelFactory.create_model, h]
  · intro next t t' a n a' n' h1 h2
    simp only [ModelFactory.create_model_alloc] at h1 h2
    cases hl : ModelFactory.models.lookup t <;> rw [hl] at h1 <;>
      simp at h1
    cases hl' : ModelFactory.models.lookup t' <;> rw [hl'] at h2 <;>
      simp at h2
    obtain ⟨h1a, h1n⟩ := h1
    obtain ⟨h2a, h2n⟩ := h2
    have ha : a.1 = next := by rw [← h1a]
    have ha' : a'.1 = n := by rw [← h2a]
    omega

/-- Witness for C8: `"nonexistent"` raises, `"Text-to-Image"` constructs
a fresh text instance, and two successive allocations (addresses 0 and 1)
are distinct objects. -/
theorem claim_C8_witness :
    ModelFactory.create_model "nonexistent" =
        .error (.valueError "Unknown model type: nonexistent")
  ∧ ModelFactory.create_model "Text-to-Image" =
        .ok (constructModel ModelType.text)
  ∧ ((0, constructModel ModelType.text) : Nat × ModelInstance).1 ≠
      ((1, constructModel ModelType.text) : Nat × ModelInstance).1 := by
  refine ⟨claim_C8_create_model.1 "nonexistent" (by decide),
    claim_C8_create_model.2.1 "Text-to-Image" ModelType.text (by decide),
    claim_C8_create_model.2.2 0 "Text-to-Image" "Text-to-Image"
      (0, constructModel ModelType.text) 1
      (1, constructModel ModelType.text) 2 rfl rfl⟩

/-- C10: `get_available_models` returns exactly
`["Text-to-Image", "Image Classification"]` in registration order, and the
identifier `"Text-to-Image"` constructs the text variant whose
`get_model_info` category is `"Text Classification"` — the registered
identifier of the text model does not match its category string. -/
theorem claim_C10_registry_mismatch :
    ModelFactory.get_available_models =
        ["Text-to-Image", "Image Classification"]
  ∧ ModelFactory.create_model "Text-to-Image" =
        .ok (.text TextClassificationModel.init)
  ∧ (ModelInstance.text TextClassificationModel.init).get_model_info.lookup
        "category" = some "Text Classification"
  ∧ "Text-to-Image" ≠ "Text Classification" := by
  exact ⟨rfl, rfl, by decide, by decide⟩
